import Mathlib

/-! Zooshi: the AdMob rewarded-video helper and the options menu.

A shallow embedding of `src/admob.cpp` (class `AdMobHelper` and its
`RewardedVideoListener`) and of the options menu of `src/gui.cpp`
(`GameMenuState::OptionMenu` and the pages it dispatches to).

Member functions become pure functions on the object's fields.  Calls that
leave the program (the Firebase AdMob SDK, the logger) are returned as a list
of `SdkCall`s, in the order the function makes them.  The menu appends its
calls to other components to `GameMenuState.calls`.
-/

namespace Zooshi

/-! ## Types declared in `admob.h` and in the Firebase SDK -/

/-- Modelled from the spec: the `AdMobStatus` enumeration of `admob.h`, which is
not part of the sources at hand.  The spec lists the six values
(uninitialized/initializing/loading/available/showing/error). -/
inductive AdMobStatus where
  | kAdMobStatusUninitialized
  | kAdMobStatusInitializing
  | kAdMobStatusLoading
  | kAdMobStatusAvailable
  | kAdMobStatusShowing
  | kAdMobStatusError
  deriving DecidableEq, Repr

/-- The `firebase::admob::rewarded_video::PresentationState` enumeration of the
SDK.  The code only distinguishes `kPresentationStateHidden` from the rest. -/
inductive PresentationState where
  | kPresentationStateHidden
  | kPresentationStateCoveringUI
  | kPresentationStateVideoHasStarted
  | kPresentationStateVideoHasCompleted
  deriving DecidableEq, Repr

/-- The `firebase::admob::rewarded_video::RewardItem` payload.  The helper only
stores it; the amount (a float in the SDK) is kept as an uninterpreted
number. -/
structure RewardItem where
  amount : Int
  reward_type : String
  deriving DecidableEq, Repr

/-- The part of a completed `firebase::Future<void>` the callbacks read:
`Error()` (zero on success) and `ErrorMessage()`. -/
structure Future where
  Error : Int
  ErrorMessage : String
  deriving DecidableEq, Repr

/-- The three static completion callbacks of `AdMobHelper`. -/
inductive Completion where
  | InitializeCompletion
  | LoadNewRewardedVideoCompletion
  | ShowRewardedVideoCompletion
  deriving DecidableEq, Repr

/-- Calls the helper makes to the outside: requests to the SDK that carry a
completion callback, the two calls without one, and the error log. -/
inductive SdkCall where
  /-- The call `firebase::admob::Initialize(app, kAdMobAppID)`. -/
  | AdMobInitialize (app_id : String)
  /-- The call `rewarded_video::Initialize().OnCompletion(c, this)`. -/
  | Initialize (on_completion : Completion)
  /-- The call `rewarded_video::SetListener(&helper->listener_)`. -/
  | SetListener
  /-- The call `rewarded_video::LoadAd(unit, request).OnCompletion(c, this)`. -/
  | LoadAd (ad_unit : String) (on_completion : Completion)
  /-- The call `rewarded_video::Show(ad_parent).OnCompletion(c, this)`. -/
  | Show (on_completion : Completion)
  /-- The call `fplbase::LogError(format, message)`. -/
  | LogError (format : String) (message : String)
  deriving DecidableEq, Repr

/-- An initialize, load or show request to the SDK. -/
def SdkCall.isRequest : SdkCall → Bool
  | .AdMobInitialize _ => true
  | .Initialize _ => true
  | .LoadAd _ _ => true
  | .Show _ => true
  | .SetListener => false
  | .LogError _ _ => false

/-- The completion callback a request registers, if it registers one. -/
def SdkCall.completion : SdkCall → Option Completion
  | .Initialize c => some c
  | .LoadAd _ c => some c
  | .Show c => some c
  | .AdMobInitialize _ => none
  | .SetListener => none
  | .LogError _ _ => none

/-- The requests among a list of calls. -/
def requests (calls : List SdkCall) : List SdkCall :=
  calls.filter SdkCall.isRequest

def kAdMobAppID : String := "ca-app-pub-3940256099942544~1891588914"

def kRewardedVideoAdUnit : String := "ca-app-pub-3940256099942544/4705454513"

/-! ## `RewardedVideoListener` -/

/-- The fields of `RewardedVideoListener`, as its constructor initialises
them. -/
structure RewardedVideoListener where
  earned_reward_ : Bool
  expecting_state_change_ : Bool
  presentation_state_ : PresentationState
  reward_item_ : RewardItem
  deriving DecidableEq, Repr

namespace RewardedVideoListener

/-- The constructor `RewardedVideoListener::RewardedVideoListener()`. -/
def new : RewardedVideoListener :=
  { earned_reward_ := false
    expecting_state_change_ := false
    presentation_state_ := PresentationState.kPresentationStateHidden
    reward_item_ := { amount := 0, reward_type := "" } }

/-- The callback `RewardedVideoListener::OnPresentationStateChanged`. -/
def OnPresentationStateChanged (l : RewardedVideoListener)
    (state : PresentationState) : RewardedVideoListener :=
  { l with presentation_state_ := state, expecting_state_change_ := false }

/-- The callback `RewardedVideoListener::OnRewarded`. -/
def OnRewarded (l : RewardedVideoListener) (reward : RewardItem) :
    RewardedVideoListener :=
  { l with earned_reward_ := true, reward_item_ := reward }

/-- Modelled from the spec: the setter `set_expecting_state_change` declared in
`admob.h`, which is not part of the sources at hand; it assigns the flag. -/
def set_expecting_state_change (l : RewardedVideoListener) (b : Bool) :
    RewardedVideoListener :=
  { l with expecting_state_change_ := b }

end RewardedVideoListener

/-! ## `AdMobHelper` -/

/-- The fields of `AdMobHelper` that `admob.cpp` reads and writes. -/
structure AdMobHelper where
  rewarded_video_status_ : AdMobStatus
  listener_ : RewardedVideoListener
  deriving DecidableEq, Repr

namespace AdMobHelper

/-- Modelled from the spec: the constructor of `AdMobHelper` declared in
`admob.h`, which is not part of the sources at hand.  A fresh helper is
uninitialized and owns a freshly constructed listener. -/
def new : AdMobHelper :=
  { rewarded_video_status_ := AdMobStatus.kAdMobStatusUninitialized
    listener_ := RewardedVideoListener.new }

/-- The member `AdMobHelper::LoadNewRewardedVideo`. -/
def LoadNewRewardedVideo (helper : AdMobHelper) : AdMobHelper × List SdkCall :=
  ({ helper with rewarded_video_status_ := AdMobStatus.kAdMobStatusLoading },
   [SdkCall.LoadAd kRewardedVideoAdUnit Completion.LoadNewRewardedVideoCompletion])

/-- The static callback `AdMobHelper::InitializeCompletion`. -/
def InitializeCompletion (completed_future : Future) (helper : AdMobHelper) :
    AdMobHelper × List SdkCall :=
  if completed_future.Error ≠ 0 then
    ({ helper with rewarded_video_status_ := AdMobStatus.kAdMobStatusError },
     [SdkCall.LogError "Failed to initialize rewarded video: %s"
        completed_future.ErrorMessage])
  else
    let r := helper.LoadNewRewardedVideo
    (r.1, SdkCall.SetListener :: r.2)

/-- The member `AdMobHelper::Initialize`. -/
def Initialize (helper : AdMobHelper) : AdMobHelper × List SdkCall :=
  ({ helper with rewarded_video_status_ := AdMobStatus.kAdMobStatusInitializing },
   [SdkCall.AdMobInitialize kAdMobAppID,
    SdkCall.Initialize Completion.InitializeCompletion])

/-- The static callback `AdMobHelper::LoadNewRewardedVideoCompletion`. -/
def LoadNewRewardedVideoCompletion (completed_future : Future)
    (helper : AdMobHelper) : AdMobHelper × List SdkCall :=
  if completed_future.Error ≠ 0 then
    ({ helper with rewarded_video_status_ := AdMobStatus.kAdMobStatusError },
     [SdkCall.LogError "Failed to load rewarded video: %s"
        completed_future.ErrorMessage])
  else
    ({ helper with rewarded_video_status_ := AdMobStatus.kAdMobStatusAvailable }, [])

/-- The static callback `AdMobHelper::ShowRewardedVideoCompletion`. -/
def ShowRewardedVideoCompletion (completed_future : Future)
    (helper : AdMobHelper) : AdMobHelper × List SdkCall :=
  if completed_future.Error ≠ 0 then
    ({ helper with
        rewarded_video_status_ := AdMobStatus.kAdMobStatusError
        listener_ := helper.listener_.set_expecting_state_change false },
     [SdkCall.LogError "Failed to show rewarded video: %s"
        completed_future.ErrorMessage])
  else
    (helper, [])

/-- The member `AdMobHelper::ShowRewardedVideo`. -/
def ShowRewardedVideo (helper : AdMobHelper) : AdMobHelper × List SdkCall :=
  if helper.rewarded_video_status_ ≠ AdMobStatus.kAdMobStatusAvailable then
    (helper, [SdkCall.LogError "Unable to show rewarded video, not available" ""])
  else
    ({ helper with
        rewarded_video_status_ := AdMobStatus.kAdMobStatusShowing
        listener_ := helper.listener_.set_expecting_state_change true },
     [SdkCall.Show Completion.ShowRewardedVideoCompletion])

/-- The member `AdMobHelper::CheckShowRewardedVideo`: the returned flag and the
helper afterwards. -/
def CheckShowRewardedVideo (helper : AdMobHelper) : Bool × AdMobHelper :=
  if helper.rewarded_video_status_ = AdMobStatus.kAdMobStatusLoading then
    (false, helper)
  else if helper.rewarded_video_status_ = AdMobStatus.kAdMobStatusShowing then
    if !helper.listener_.expecting_state_change_ &&
        helper.listener_.presentation_state_ ==
          PresentationState.kPresentationStateHidden then
      (true, { helper with rewarded_video_status_ := AdMobStatus.kAdMobStatusAvailable })
    else
      (false, helper)
  else
    (true, helper)

/-- Dispatch of a completed future to the callback registered for it. -/
def complete (c : Completion) (completed_future : Future) (helper : AdMobHelper) :
    AdMobHelper × List SdkCall :=
  match c with
  | .InitializeCompletion => helper.InitializeCompletion completed_future
  | .LoadNewRewardedVideoCompletion =>
      helper.LoadNewRewardedVideoCompletion completed_future
  | .ShowRewardedVideoCompletion => helper.ShowRewardedVideoCompletion completed_future

end AdMobHelper

/-! ## Runs of the helper against the SDK

The helper is driven from outside: the game calls `ShowRewardedVideo` and
`CheckShowRewardedVideo`, the SDK calls the listener and delivers the
completion of each request.  `System` keeps, next to the helper, every call
made so far, the completions that are registered and not yet delivered, and
the flags `CheckShowRewardedVideo` returned. -/

/-- What can happen to an initialised helper. -/
inductive HelperEvent where
  | ShowRewardedVideo
  | CheckShowRewardedVideo
  | OnPresentationStateChanged (state : PresentationState)
  | OnRewarded (reward : RewardItem)
  | Completed (c : Completion) (completed_future : Future)
  deriving DecidableEq, Repr

structure System where
  helper : AdMobHelper
  calls : List SdkCall
  outstanding : List Completion
  checks : List Bool
  deriving DecidableEq, Repr

namespace System

/-- A helper with nothing called yet. -/
def start (helper : AdMobHelper) : System :=
  { helper := helper, calls := [], outstanding := [], checks := [] }

/-- Take over the result of a member function: the new helper, the calls it
made, and the completions those calls registered. -/
def issue (s : System) (r : AdMobHelper × List SdkCall) : System :=
  { s with
      helper := r.1
      calls := s.calls ++ r.2
      outstanding := s.outstanding ++ r.2.filterMap SdkCall.completion }

/-- One event. -/
def exec (s : System) : HelperEvent → System
  | .ShowRewardedVideo => s.issue s.helper.ShowRewardedVideo
  | .CheckShowRewardedVideo =>
      { s with
          helper := s.helper.CheckShowRewardedVideo.2
          checks := s.checks ++ [s.helper.CheckShowRewardedVideo.1] }
  | .OnPresentationStateChanged state =>
      { s with
          helper := { s.helper with
            listener_ := s.helper.listener_.OnPresentationStateChanged state } }
  | .OnRewarded reward =>
      { s with
          helper := { s.helper with listener_ := s.helper.listener_.OnRewarded reward } }
  | .Completed c completed_future =>
      issue { s with outstanding := s.outstanding.erase c }
        (s.helper.complete c completed_future)

/-- A sequence of events, oldest first. -/
def runs (s : System) : List HelperEvent → System
  | [] => s
  | e :: es => runs (s.exec e) es

/-- The system after `Initialize` has been called on a helper. -/
def boot (helper : AdMobHelper) : System :=
  (start helper).issue helper.Initialize

/-- The SDK delivers a completion only for a request that registered it and
has not been completed yet. -/
def allows (s : System) : HelperEvent → Bool
  | .Completed c _ => decide (c ∈ s.outstanding)
  | _ => true

/-- Every completion in the sequence answers an outstanding request: one
completion callback per request at most. -/
def admits (s : System) : List HelperEvent → Bool
  | [] => true
  | e :: es => s.allows e && admits (s.exec e) es

end System

/-- The outstanding completions fit the status: the initialize request is
outstanding only while initializing, the load request only while loading, and
otherwise only show requests are outstanding. -/
def System.Coherent (s : System) : Prop :=
  (s.outstanding = [Completion.InitializeCompletion] ∧
    s.helper.rewarded_video_status_ = AdMobStatus.kAdMobStatusInitializing) ∨
  (s.outstanding = [Completion.LoadNewRewardedVideoCompletion] ∧
    s.helper.rewarded_video_status_ = AdMobStatus.kAdMobStatusLoading) ∨
  (∀ c ∈ s.outstanding, c = Completion.ShowRewardedVideoCompletion)

/-- The error state with only show requests outstanding. -/
def System.Failed (s : System) : Prop :=
  (∀ c ∈ s.outstanding, c = Completion.ShowRewardedVideoCompletion) ∧
  s.helper.rewarded_video_status_ = AdMobStatus.kAdMobStatusError

/-! ## `gui.cpp`: the options menu

The menu is an immediate-mode UI definition: every frame it calls the FlatUI
widgets again, and each widget hands back what the user did to it.  What the
widgets hand back during one execution of the definition is the `UiInput`.
Calls to other components are appended to `GameMenuState.calls`, oldest first.
Pure styling calls (`SetMargin`, `SetTextColor`, `SetTextFont`,
`PositionGroup`) and the debug markers are left out: they return nothing and
touch no field of the menu. -/

namespace flatui

/-- The `flatui::Event` bit mask of the FlatUI library. -/
abbrev Event := Nat

def kEventNone : Event := 0

def kEventWentUp : Event := 1

def kEventWentDown : Event := 2

def kEventIsDown : Event := 4

def kEventStartDrag : Event := 8

def kEventEndDrag : Event := 16

def kEventHover : Event := 32

/-- The C++ condition `event & mask`. -/
def test (event mask : Event) : Bool :=
  (event &&& mask) != 0

/-- The group layouts of FlatUI that the menu uses. -/
inductive Layout where
  | kLayoutOverlay
  | kLayoutHorizontalTop
  | kLayoutHorizontalCenter
  | kLayoutVerticalCenter
  | kLayoutVerticalLeft
  | kLayoutVerticalRight
  deriving DecidableEq, Repr

end flatui

/-- Modelled from the spec: the `MenuState` enumeration of
`states/game_menu_state.h`, which is not part of the sources at hand; these are
the values `gui.cpp` names. -/
inductive MenuState where
  | kMenuStateStart
  | kMenuStateOptions
  | kMenuStateFinished
  | kMenuStateCardboard
  | kMenuStateGamepad
  | kMenuStateQuit
  deriving DecidableEq, Repr

/-- Modelled from the spec: the `OptionsMenuState` enumeration of
`states/game_menu_state.h`, which is not part of the sources at hand; these are
the six pages `OptionMenu` dispatches on. -/
inductive OptionsMenuState where
  | kOptionsMenuStateMain
  | kOptionsMenuStateAbout
  | kOptionsMenuStateLicenses
  | kOptionsMenuStateAudio
  | kOptionsMenuStateRendering
  | kOptionsMenuStateSushi
  deriving DecidableEq, Repr

/-- A C++ `float` of the menu (slider values, scroll offsets), kept as a
rational number: the menu only copies, compares and rescales these. -/
abbrev Scalar := Rat

/-- The `mathfu::vec2` of two floats. -/
structure vec2 where
  x : Scalar
  y : Scalar
  deriving DecidableEq, Repr

def kZeros2f : vec2 := { x := 0, y := 0 }

/-- The rendering options `gui.cpp` names. -/
inductive RenderingOption where
  | kShadowEffect
  | kPhongShading
  | kSpecularEffect
  deriving DecidableEq, Repr

/-- Modelled from the spec: the part of the `World` object of `world.h` (not
part of the sources at hand) that the options menu reads and writes: the three
rendering options for normal and for cardboard rendering, the selected sushi
and the controller flag. -/
structure World where
  shadow : Bool
  phong : Bool
  specular : Bool
  shadow_cardboard : Bool
  phong_cardboard : Bool
  specular_cardboard : Bool
  sushi_index : Nat
  hmd_controller_enabled : Bool
  deriving DecidableEq, Repr

namespace World

/-- Modelled from the spec: the query `World::RenderingOptionEnabled` of
`world.h`, not part of the sources at hand; it reads the flag of the option. -/
def RenderingOptionEnabled (w : World) : RenderingOption → Bool
  | .kShadowEffect => w.shadow
  | .kPhongShading => w.phong
  | .kSpecularEffect => w.specular

/-- Modelled from the spec: the query `World::RenderingOptionEnabledCardboard`
of `world.h`, not part of the sources at hand. -/
def RenderingOptionEnabledCardboard (w : World) : RenderingOption → Bool
  | .kShadowEffect => w.shadow_cardboard
  | .kPhongShading => w.phong_cardboard
  | .kSpecularEffect => w.specular_cardboard

/-- Modelled from the spec: the setter `World::SetRenderingOption` of
`world.h`, not part of the sources at hand; a query after it returns the value
set. -/
def SetRenderingOption (w : World) (o : RenderingOption) (enabled : Bool) : World :=
  match o with
  | .kShadowEffect => { w with shadow := enabled }
  | .kPhongShading => { w with phong := enabled }
  | .kSpecularEffect => { w with specular := enabled }

/-- Modelled from the spec: the setter `World::SetRenderingOptionCardboard` of
`world.h`, not part of the sources at hand. -/
def SetRenderingOptionCardboard (w : World) (o : RenderingOption) (enabled : Bool) :
    World :=
  match o with
  | .kShadowEffect => { w with shadow_cardboard := enabled }
  | .kPhongShading => { w with phong_cardboard := enabled }
  | .kSpecularEffect => { w with specular_cardboard := enabled }

end World

/-- One entry of the sushi table of the game configuration. -/
structure SushiConfig where
  name : String
  description : String
  deriving DecidableEq, Repr

/-- What the menu reads and never writes: the sushi table of the
configuration, the two texts, the scroll area (a constant of
`states/states_common.h`, not part of the sources at hand), the two
preprocessor switches, and what the platform and the sign-in service report. -/
structure Config where
  sushi_config : List SushiConfig
  about_text_ : String
  license_text_ : String
  kScrollAreaSize : vec2
  USING_GOOGLE_PLAY_GAMES : Bool
  ANDROID_HMD : Bool
  SupportsHeadMountedDisplay : Bool
  LoggedIn : Bool
  deriving DecidableEq, Repr

/-- The sound handles of the menu. -/
inductive Sound where
  | sound_click_
  | sound_select_
  | sound_exit_
  | sound_adjust_
  deriving DecidableEq, Repr

/-- What `SaveData` finds when it is called: the page and the settings. -/
structure Saved where
  options_menu_state_ : OptionsMenuState
  world_ : World
  slider_value_music_ : Scalar
  slider_value_effect_ : Scalar
  deriving DecidableEq, Repr

/-- Calls of the menu into other components: the FlatUI widgets and groups, the
audio engine, the sign-in service, and the members `SaveData` and
`UpdateVolumes` of `GameMenuState` defined outside `gui.cpp`. -/
inductive Call where
  | StartGroup (layout : flatui.Layout) (id : String)
  | EndGroup
  | Image (texture : String)
  | Label (text : String)
  | TextButton (text : String)
  | CheckEvent
  | EventBackground (event : flatui.Event)
  | ImageBackground (texture : String)
  | CheckBox (label : String)
  | Slider (id : String)
  | StartScroll
  | EndScroll
  | ScrollBar (id : String)
  | PlaySound (sound : Sound)
  | UpdateVolumes
  | SaveData (saved : Saved)
  | ShowLeaderboards
  | ShowAchievements
  deriving DecidableEq, Repr

/-- The fields of `GameMenuState` the options menu reads and writes, the world
it points to, and the calls made so far. -/
structure GameMenuState where
  options_menu_state_ : OptionsMenuState
  scroll_offset_ : vec2
  slider_value_music_ : Scalar
  slider_value_effect_ : Scalar
  world_ : World
  calls : List Call
  deriving DecidableEq, Repr

/-- What the widgets report during one execution of the UI definition: the
event of each button and check box, the value a slider or scroll bar leaves in
the variable it is given, the scroll offset the scroll group leaves, and the
size FlatUI measured for the scrolled text. -/
structure UiInput where
  about : flatui.Event
  leaderboard : flatui.Event
  achievements : flatui.Event
  licenses : flatui.Event
  audio : flatui.Event
  rendering : flatui.Event
  controls : flatui.Event
  scroll : vec2 → vec2
  scroll_event : flatui.Event
  scroll_size : vec2
  scrollbar : Scalar → Scalar
  IsLastEventPointerType : Bool
  music_slider : Scalar → Scalar
  effect_slider : Scalar → Scalar
  effect_event : flatui.Event
  shadow_cardboard : flatui.Event
  phong_cardboard : flatui.Event
  specular_cardboard : flatui.Event
  shadow : flatui.Event
  phong : flatui.Event
  specular : flatui.Event
  sushi : Nat → flatui.Event
  back : flatui.Event

/-- The layout pass of FlatUI: the same definition is executed, but no widget
reports an event and no widget changes the variable it is given. -/
def UiInput.layoutPass (input : UiInput) : UiInput :=
  { input with
      about := flatui.kEventNone
      leaderboard := flatui.kEventNone
      achievements := flatui.kEventNone
      licenses := flatui.kEventNone
      audio := flatui.kEventNone
      rendering := flatui.kEventNone
      controls := flatui.kEventNone
      scroll := id
      scroll_event := flatui.kEventNone
      scrollbar := id
      music_slider := id
      effect_slider := id
      effect_event := flatui.kEventNone
      shadow_cardboard := flatui.kEventNone
      phong_cardboard := flatui.kEventNone
      specular_cardboard := flatui.kEventNone
      shadow := flatui.kEventNone
      phong := flatui.kEventNone
      specular := flatui.kEventNone
      sushi := fun _ => flatui.kEventNone
      back := flatui.kEventNone }

/-- The function `flatui::Run`: the UI definition is executed twice, once for
the layout pass and once for the render pass; only the render pass sees the
input of the user. -/
def flatui.Run {σ : Type} (gui_definition : UiInput → σ → σ) (input : UiInput)
    (state : σ) : σ :=
  gui_definition input (gui_definition input.layoutPass state)

/-- The check box of FlatUI: a click (the event went up) flips the flag it is
given. -/
def flatui.CheckBox (event : flatui.Event) (is_checked : Bool) : Bool :=
  if flatui.test event flatui.kEventWentUp then !is_checked else is_checked

namespace GameMenuState

/-- Record a call. -/
def call (s : GameMenuState) (c : Call) : GameMenuState :=
  { s with calls := s.calls ++ [c] }

/-- What `SaveData` finds in the menu. -/
def saved (s : GameMenuState) : Saved :=
  { options_menu_state_ := s.options_menu_state_
    world_ := s.world_
    slider_value_music_ := s.slider_value_music_
    slider_value_effect_ := s.slider_value_effect_ }

/-- Modelled from the spec: the member `GameMenuState::SaveData`, defined
outside the sources at hand; it is recorded as a call, together with the page
and the settings it finds. -/
def SaveData (s : GameMenuState) : GameMenuState :=
  s.call (Call.SaveData s.saved)

/-- Modelled from the spec: the member `GameMenuState::UpdateVolumes`, defined
outside the sources at hand; it is recorded as a call. -/
def UpdateVolumes (s : GameMenuState) : GameMenuState :=
  s.call Call.UpdateVolumes

/-- The member `GameMenuState::PlayButtonSound`. -/
def PlayButtonSound (event : flatui.Event) (sound : Sound) (s : GameMenuState) :
    flatui.Event × GameMenuState :=
  if flatui.test event flatui.kEventWentUp then
    (event, s.call (Call.PlaySound sound))
  else
    (event, s)

/-- The member `GameMenuState::TextButton` with a sound; `widget` is what
`flatui::TextButton` returns.  The overload with a texture makes the same
calls. -/
def TextButton (text : String) (sound : Sound) (widget : flatui.Event)
    (s : GameMenuState) : flatui.Event × GameMenuState :=
  PlayButtonSound widget sound (s.call (Call.TextButton text))

/-- The member `GameMenuState::ImageButtonWithLabel` with a sound; `widget` is
what `flatui::CheckEvent` returns. -/
def ImageButtonWithLabel (tex : String) (label : String) (sound : Sound)
    (widget : flatui.Event) (s : GameMenuState) : flatui.Event × GameMenuState :=
  let s1 := (s.call (Call.StartGroup flatui.Layout.kLayoutVerticalLeft
    "ImageButtonWithLabel")).call Call.CheckEvent
  let r := PlayButtonSound widget sound s1
  (r.1,
   (((r.2.call (Call.EventBackground r.1)).call (Call.ImageBackground tex)).call
      (Call.Label label)).call Call.EndGroup)

end GameMenuState

/-! ### The pages of the options menu -/

namespace GameMenuState

/-- The member `GameMenuState::OptionMenuMain`. -/
def OptionMenuMain (config : Config) (input : UiInput) (s : GameMenuState) :
    GameMenuState :=
  let s := (s.call (Call.StartGroup flatui.Layout.kLayoutVerticalLeft "menu")).call
    Call.EndGroup
  let r := TextButton "About" Sound.sound_select_ input.about s
  let s := if flatui.test r.1 flatui.kEventWentUp then
      { r.2 with options_menu_state_ := OptionsMenuState.kOptionsMenuStateAbout }
    else r.2
  let s := if config.USING_GOOGLE_PLAY_GAMES then
      let r := TextButton "Leaderboard" Sound.sound_click_ input.leaderboard s
      let s := if config.LoggedIn && flatui.test r.1 flatui.kEventWentUp then
          r.2.call Call.ShowLeaderboards
        else r.2
      let r := TextButton "Achievements" Sound.sound_click_ input.achievements s
      if config.LoggedIn && flatui.test r.1 flatui.kEventWentUp then
        r.2.call Call.ShowAchievements
      else r.2
    else s
  let r := TextButton "Licenses" Sound.sound_click_ input.licenses s
  let s := if flatui.test r.1 flatui.kEventWentUp then
      { r.2 with
          scroll_offset_ := kZeros2f
          options_menu_state_ := OptionsMenuState.kOptionsMenuStateLicenses }
    else r.2
  let r := TextButton "Audio" Sound.sound_click_ input.audio s
  let s := if flatui.test r.1 flatui.kEventWentUp then
      { r.2 with options_menu_state_ := OptionsMenuState.kOptionsMenuStateAudio }
    else r.2
  let r := TextButton "Rendering" Sound.sound_click_ input.rendering s
  let s := if flatui.test r.1 flatui.kEventWentUp then
      { r.2 with options_menu_state_ := OptionsMenuState.kOptionsMenuStateRendering }
    else r.2
  if config.ANDROID_HMD && config.SupportsHeadMountedDisplay then
    let hmd_controller_enabled := s.world_.hmd_controller_enabled
    let r := TextButton
      (if hmd_controller_enabled then "Gyroscopic Controls" else "Onscreen Controls")
      Sound.sound_click_ input.controls s
    if flatui.test r.1 flatui.kEventWentUp then
      SaveData { r.2 with
        world_ := { r.2.world_ with hmd_controller_enabled := !hmd_controller_enabled } }
    else r.2
  else s

/-- The scrolled text shared by `OptionMenuAbout` and `OptionMenuLicenses`,
from the end of the scroll group on: the scroll bar is drawn when the text is
higher than the scroll area, and its value is converted back to the offset. -/
def scrollBar (config : Config) (input : UiInput) (s : GameMenuState) : GameMenuState :=
  let scroll_height := input.scroll_size.y - config.kScrollAreaSize.y
  if scroll_height > 0 then
    let scrollbar_value := input.scrollbar (s.scroll_offset_.y / scroll_height)
    let s := s.call (Call.ScrollBar "LicenseScrollBar")
    { s with scroll_offset_ := { s.scroll_offset_ with y := scrollbar_value * scroll_height } }
  else s

/-- The member `GameMenuState::OptionMenuAbout`. -/
def OptionMenuAbout (config : Config) (input : UiInput) (s : GameMenuState) :
    GameMenuState :=
  let s := ((s.call (Call.StartGroup flatui.Layout.kLayoutVerticalLeft "menu")).call
    (Call.Label "About")).call Call.EndGroup
  let s := ((s.call (Call.StartGroup flatui.Layout.kLayoutHorizontalCenter "")).call
    (Call.StartGroup flatui.Layout.kLayoutVerticalCenter "scroll")).call Call.StartScroll
  let s := { s with scroll_offset_ := input.scroll s.scroll_offset_ }
  let s := ((s.call (Call.Label config.about_text_)).call Call.EndScroll).call Call.EndGroup
  (scrollBar config input s).call Call.EndGroup

/-- The member `GameMenuState::OptionMenuLicenses`. -/
def OptionMenuLicenses (config : Config) (input : UiInput) (s : GameMenuState) :
    GameMenuState :=
  let s := ((s.call (Call.StartGroup flatui.Layout.kLayoutVerticalLeft "menu")).call
    (Call.Label "Licenses")).call Call.EndGroup
  let s := ((s.call (Call.StartGroup flatui.Layout.kLayoutHorizontalCenter "")).call
    (Call.StartGroup flatui.Layout.kLayoutVerticalCenter "scroll")).call Call.StartScroll
  let s := { s with scroll_offset_ := input.scroll s.scroll_offset_ }
  let s := s.call Call.CheckEvent
  let s := if !input.IsLastEventPointerType then
      s.call (Call.EventBackground input.scroll_event)
    else s
  let s := ((s.call (Call.Label config.license_text_)).call Call.EndScroll).call
    Call.EndGroup
  (scrollBar config input s).call Call.EndGroup

/-- The member `GameMenuState::OptionMenuAudio`. -/
def OptionMenuAudio (input : UiInput) (s : GameMenuState) : GameMenuState :=
  let original_music_volume := s.slider_value_music_
  let original_effect_volume := s.slider_value_effect_
  let s := ((s.call (Call.StartGroup flatui.Layout.kLayoutVerticalLeft "menu")).call
    (Call.Label "Audio")).call Call.EndGroup
  let s := ((s.call (Call.StartGroup flatui.Layout.kLayoutHorizontalCenter "")).call
    (Call.Label "Music volume")).call (Call.Slider "MusicVolume")
  let s := { s with slider_value_music_ := input.music_slider s.slider_value_music_ }
  let s := s.call Call.EndGroup
  let s := ((s.call (Call.StartGroup flatui.Layout.kLayoutHorizontalCenter "")).call
    (Call.Label "Effect volume")).call (Call.Slider "EffectVolume")
  let s := { s with slider_value_effect_ := input.effect_slider s.slider_value_effect_ }
  let event := input.effect_event
  let s := if flatui.test event (flatui.kEventWentUp ||| flatui.kEventEndDrag) then
      s.call (Call.PlaySound Sound.sound_adjust_)
    else s
  let s := s.call Call.EndGroup
  if original_music_volume ≠ s.slider_value_music_ ∨
      original_effect_volume ≠ s.slider_value_effect_ then
    UpdateVolumes s
  else s

/-- The member `GameMenuState::OptionMenuRendering`. -/
def OptionMenuRendering (config : Config) (input : UiInput) (s : GameMenuState) :
    GameMenuState :=
  let s := ((s.call (Call.StartGroup flatui.Layout.kLayoutVerticalLeft "menu")).call
    (Call.Label "Rendering")).call Call.EndGroup
  let render_shadows := s.world_.RenderingOptionEnabled RenderingOption.kShadowEffect
  let apply_phong := s.world_.RenderingOptionEnabled RenderingOption.kPhongShading
  let apply_specular := s.world_.RenderingOptionEnabled RenderingOption.kSpecularEffect
  let render_shadows_cardboard :=
    s.world_.RenderingOptionEnabledCardboard RenderingOption.kShadowEffect
  let apply_phong_cardboard :=
    s.world_.RenderingOptionEnabledCardboard RenderingOption.kPhongShading
  let apply_specular_cardboard :=
    s.world_.RenderingOptionEnabledCardboard RenderingOption.kSpecularEffect
  let s := s.call (Call.StartGroup flatui.Layout.kLayoutHorizontalTop "")
  let hmd := config.SupportsHeadMountedDisplay
  let s := if hmd then
      (((((s.call (Call.StartGroup flatui.Layout.kLayoutVerticalLeft "")).call
        (Call.Image "cardboard_logo_")).call (Call.CheckBox "")).call
        (Call.CheckBox "")).call (Call.CheckBox "")).call Call.EndGroup
    else s
  let render_shadows_cardboard := if hmd then
      flatui.CheckBox input.shadow_cardboard render_shadows_cardboard
    else render_shadows_cardboard
  let apply_phong_cardboard := if hmd then
      flatui.CheckBox input.phong_cardboard apply_phong_cardboard
    else apply_phong_cardboard
  let apply_specular_cardboard := if hmd then
      flatui.CheckBox input.specular_cardboard apply_specular_cardboard
    else apply_specular_cardboard
  let s := (((((((s.call (Call.StartGroup flatui.Layout.kLayoutVerticalCenter "")).call
    (Call.StartGroup flatui.Layout.kLayoutVerticalLeft "")).call
    (Call.CheckBox "Shadows")).call (Call.CheckBox "Phong Shading")).call
    (Call.CheckBox "Specular")).call Call.EndGroup).call Call.EndGroup).call Call.EndGroup
  let render_shadows := flatui.CheckBox input.shadow render_shadows
  let apply_phong := flatui.CheckBox input.phong apply_phong
  let apply_specular := flatui.CheckBox input.specular apply_specular
  let w := s.world_.SetRenderingOptionCardboard RenderingOption.kShadowEffect
    render_shadows_cardboard
  let w := w.SetRenderingOptionCardboard RenderingOption.kPhongShading apply_phong_cardboard
  let w := w.SetRenderingOptionCardboard RenderingOption.kSpecularEffect
    apply_specular_cardboard
  let w := w.SetRenderingOption RenderingOption.kShadowEffect render_shadows
  let w := w.SetRenderingOption RenderingOption.kPhongShading apply_phong
  let w := w.SetRenderingOption RenderingOption.kSpecularEffect apply_specular
  SaveData { s with world_ := w }

end GameMenuState

namespace GameMenuState

def kSushiPerLine : Nat := 3

/-- Modelled from the spec: the query `World::SelectedSushi` of `world.h`, not
part of the sources at hand: the entry of the sushi table at `sushi_index`
(an empty entry when the index is outside the table). -/
def SelectedSushi (config : Config) (w : World) : SushiConfig :=
  config.sushi_config.getD w.sushi_index { name := "", description := "" }

/-- The inner loop of `GameMenuState::OptionMenuSushi`: the buttons `i + j`,
`i + j + 1`, ... of the line that starts at `i`. -/
def OptionMenuSushi.line (config : Config) (input : UiInput) (i j : Nat)
    (s : GameMenuState) : GameMenuState :=
  if h : j < kSushiPerLine ∧ i + j < config.sushi_config.length then
    let r := ImageButtonWithLabel "button_back_" (config.sushi_config.get ⟨i + j, h.2⟩).name
      Sound.sound_click_ (input.sushi (i + j)) s
    let s := if flatui.test r.1 flatui.kEventWentUp then
        { r.2 with world_ := { r.2.world_ with sushi_index := i + j } }
      else r.2
    OptionMenuSushi.line config input i (j + 1) s
  else s
termination_by kSushiPerLine - j
decreasing_by
  omega

/-- The outer loop of `GameMenuState::OptionMenuSushi`: the lines that start at
`i`, `i + kSushiPerLine`, ... -/
def OptionMenuSushi.lines (config : Config) (input : UiInput) (i : Nat)
    (s : GameMenuState) : GameMenuState :=
  if i < config.sushi_config.length then
    let s := s.call (Call.StartGroup flatui.Layout.kLayoutHorizontalCenter "")
    let s := OptionMenuSushi.line config input i 0 s
    OptionMenuSushi.lines config input (i + kSushiPerLine) (s.call Call.EndGroup)
  else s
termination_by config.sushi_config.length - i
decreasing_by
  simp only [kSushiPerLine]
  omega

/-- The member `GameMenuState::OptionMenuSushi`. -/
def OptionMenuSushi (config : Config) (input : UiInput) (s : GameMenuState) :
    GameMenuState :=
  let current_sushi := SelectedSushi config s.world_
  let s := (((s.call (Call.StartGroup flatui.Layout.kLayoutVerticalCenter "menu")).call
    (Call.Label current_sushi.name)).call (Call.Label current_sushi.description)).call
    Call.EndGroup
  let s := s.call (Call.StartGroup flatui.Layout.kLayoutVerticalCenter "")
  (OptionMenuSushi.lines config input 0 s).call Call.EndGroup

/-! ### `OptionMenu` -/

/-- The `switch` of `GameMenuState::OptionMenu` over the current page. -/
def OptionMenuPage (config : Config) (input : UiInput) (s : GameMenuState) :
    GameMenuState :=
  match s.options_menu_state_ with
  | .kOptionsMenuStateMain => OptionMenuMain config input s
  | .kOptionsMenuStateAbout => OptionMenuAbout config input s
  | .kOptionsMenuStateLicenses => OptionMenuLicenses config input s
  | .kOptionsMenuStateAudio => OptionMenuAudio input s
  | .kOptionsMenuStateRendering => OptionMenuRendering config input s
  | .kOptionsMenuStateSushi => OptionMenuSushi config input s

/-- The UI definition of `GameMenuState::OptionMenu` up to and including the
Back button: the background, the current page, and the button.  Returns the
event of the button and the menu as the handler of the button finds it. -/
def OptionMenuUntilBack (config : Config) (input : UiInput) (s : GameMenuState) :
    flatui.Event × GameMenuState :=
  let s := (((((s.call (Call.StartGroup flatui.Layout.kLayoutOverlay "")).call
    (Call.StartGroup flatui.Layout.kLayoutHorizontalTop "")).call
    (Call.StartGroup flatui.Layout.kLayoutVerticalCenter "")).call
    (Call.Image "background_options_")).call Call.EndGroup).call
    (Call.StartGroup flatui.Layout.kLayoutVerticalCenter "")
  let s := OptionMenuPage config input s
  let s := (s.call Call.EndGroup).call
    (Call.StartGroup flatui.Layout.kLayoutVerticalRight "")
  ImageButtonWithLabel "button_back_" "Back" Sound.sound_exit_ input.back s

/-- The handler of the Back button in `GameMenuState::OptionMenu`: the block
guarded by `event & flatui::kEventWentUp`, on the menu and on the local
`next_state`. -/
def OptionMenuBack (event : flatui.Event) (st : GameMenuState × MenuState) :
    GameMenuState × MenuState :=
  if flatui.test event flatui.kEventWentUp then
    let s := if st.1.options_menu_state_ = OptionsMenuState.kOptionsMenuStateAudio ∨
        st.1.options_menu_state_ = OptionsMenuState.kOptionsMenuStateRendering then
        SaveData st.1
      else st.1
    if s.options_menu_state_ = OptionsMenuState.kOptionsMenuStateMain ∨
        s.options_menu_state_ = OptionsMenuState.kOptionsMenuStateSushi then
      (s, MenuState.kMenuStateStart)
    else
      ({ s with options_menu_state_ := OptionsMenuState.kOptionsMenuStateMain }, st.2)
  else st

/-- The UI definition of `GameMenuState::OptionMenu`: the lambda handed to
`flatui::Run`, on the menu and on the local `next_state` it captures. -/
def OptionMenuDefinition (config : Config) (input : UiInput)
    (st : GameMenuState × MenuState) : GameMenuState × MenuState :=
  let r := OptionMenuUntilBack config input st.1
  let st := OptionMenuBack r.1 (r.2, st.2)
  (((st.1.call Call.EndGroup).call Call.EndGroup).call Call.EndGroup, st.2)

/-- The member `GameMenuState::OptionMenu`: the menu afterwards and the
returned `next_state`. -/
def OptionMenu (config : Config) (input : UiInput) (s : GameMenuState) :
    GameMenuState × MenuState :=
  flatui.Run (OptionMenuDefinition config) input (s, MenuState.kMenuStateOptions)

/-- The menu as the handler of the Back button finds it in the render pass of
`OptionMenu`, and the event of the button. -/
def OptionMenu.atBack (config : Config) (input : UiInput) (s : GameMenuState) :
    flatui.Event × GameMenuState :=
  OptionMenuUntilBack config input
    (OptionMenuDefinition config input.layoutPass (s, MenuState.kMenuStateOptions)).1

end GameMenuState

/-! ### What one pass of `OptionMenuSushi` is expected to draw

The description of the sushi page in words: one selection button per
configured sushi, in rows of `kSushiPerLine`.  These definitions do not follow
the loops of the code; the theorems compare them with the code. -/

namespace SushiSpec

/-- The label of the selection button of sushi `k`: its name in the table. -/
def label (config : Config) (k : Nat) : String :=
  (config.sushi_config.getD k { name := "", description := "" }).name

/-- The calls that draw the selection button of sushi `k`. -/
def buttonCalls (config : Config) (input : UiInput) (k : Nat) : List Call :=
  [Call.StartGroup flatui.Layout.kLayoutVerticalLeft "ImageButtonWithLabel",
    Call.CheckEvent] ++
  (if flatui.test (input.sushi k) flatui.kEventWentUp then
    [Call.PlaySound Sound.sound_click_] else []) ++
  [Call.EventBackground (input.sushi k), Call.ImageBackground "button_back_",
    Call.Label (label config k), Call.EndGroup]

/-- The calls that draw one horizontal row holding the buttons of `row`. -/
def rowCalls (config : Config) (input : UiInput) (row : List Nat) : List Call :=
  [Call.StartGroup flatui.Layout.kLayoutHorizontalCenter ""] ++
  row.flatMap (buttonCalls config input) ++ [Call.EndGroup]

/-- The rows of a table of `n` sushi: row `r` starts at index `3 * r` and holds
the indices below `n` among the next three. -/
def rows (n : Nat) : List (List Nat) :=
  (List.range ((n + 2) / 3)).map (fun r => List.range' (3 * r) (min 3 (n - 3 * r)))

/-- The selected index after the button of sushi `k`: `k` when the button
reported that it went up, the index selected before otherwise. -/
def select (input : UiInput) (index k : Nat) : Nat :=
  if flatui.test (input.sushi k) flatui.kEventWentUp then k else index

/-- The selected index after the buttons of the sushi below `n`, in increasing
order. -/
def selected (input : UiInput) (index n : Nat) : Nat :=
  (List.range n).foldl (select input) index

/-- The menu after the selection button of sushi `k`. -/
def button (config : Config) (input : UiInput) (s : GameMenuState) (k : Nat) :
    GameMenuState :=
  { s with
      calls := s.calls ++ buttonCalls config input k
      world_ := { s.world_ with sushi_index := select input s.world_.sushi_index k } }

/-- The menu after one horizontal row holding the buttons of `row`. -/
def row (config : Config) (input : UiInput) (s : GameMenuState) (r : List Nat) :
    GameMenuState :=
  (r.foldl (button config input)
    (s.call (Call.StartGroup flatui.Layout.kLayoutHorizontalCenter ""))).call Call.EndGroup

end SushiSpec

/-! ### A table of four sushi -/

namespace SushiExample

/-- A configuration with four sushi. -/
def config : Config :=
  { sushi_config :=
      [{ name := "Nigiri", description := "rice and fish" },
       { name := "Maki", description := "a roll" },
       { name := "Temaki", description := "a cone" },
       { name := "Inari", description := "a pouch" }]
    about_text_ := ""
    license_text_ := ""
    kScrollAreaSize := { x := 900, y := 500 }
    USING_GOOGLE_PLAY_GAMES := false
    ANDROID_HMD := false
    SupportsHeadMountedDisplay := false
    LoggedIn := false }

/-- The user releases the buttons of sushi 1 and of sushi 3 and nothing else. -/
def input : UiInput :=
  { about := flatui.kEventNone
    leaderboard := flatui.kEventNone
    achievements := flatui.kEventNone
    licenses := flatui.kEventNone
    audio := flatui.kEventNone
    rendering := flatui.kEventNone
    controls := flatui.kEventNone
    scroll := id
    scroll_event := flatui.kEventNone
    scroll_size := kZeros2f
    scrollbar := id
    IsLastEventPointerType := true
    music_slider := id
    effect_slider := id
    effect_event := flatui.kEventNone
    shadow_cardboard := flatui.kEventNone
    phong_cardboard := flatui.kEventNone
    specular_cardboard := flatui.kEventNone
    shadow := flatui.kEventNone
    phong := flatui.kEventNone
    specular := flatui.kEventNone
    sushi := fun k => if k = 1 ∨ k = 3 then flatui.kEventWentUp else flatui.kEventNone
    back := flatui.kEventNone }

/-- The menu on the sushi page with sushi 0 selected and no call made. -/
def menu : GameMenuState :=
  { options_menu_state_ := OptionsMenuState.kOptionsMenuStateSushi
    scroll_offset_ := kZeros2f
    slider_value_music_ := 1
    slider_value_effect_ := 1
    world_ :=
      { shadow := true
        phong := true
        specular := true
        shadow_cardboard := false
        phong_cardboard := false
        specular_cardboard := false
        sushi_index := 0
        hmd_controller_enabled := false }
    calls := [] }

end SushiExample

/-! # Theorems -/

/-! ## The completion callbacks -/

/-- C1: whatever the helper state, each of the three completion callbacks
(InitializeCompletion, LoadNewRewardedVideoCompletion,
ShowRewardedVideoCompletion), delivered with a future that reports an error,
leaves the rewarded-video status at kAdMobStatusError. -/
theorem completion_error_sets_status_error (helper : AdMobHelper)
    (completed_future : Future) (herr : completed_future.Error ≠ 0) :
    (helper.InitializeCompletion completed_future).1.rewarded_video_status_
        = AdMobStatus.kAdMobStatusError ∧
    (helper.LoadNewRewardedVideoCompletion completed_future).1.rewarded_video_status_
        = AdMobStatus.kAdMobStatusError ∧
    (helper.ShowRewardedVideoCompletion completed_future).1.rewarded_video_status_
        = AdMobStatus.kAdMobStatusError := by
  simp [AdMobHelper.InitializeCompletion, AdMobHelper.LoadNewRewardedVideoCompletion,
    AdMobHelper.ShowRewardedVideoCompletion, herr]

/-- Witness of C1: a helper whose video is available receives each callback
with error code 1. -/
theorem completion_error_sets_status_error_witness :
    ({ Error := 1, ErrorMessage := "no fill" } : Future).Error ≠ 0 ∧
    (AdMobHelper.InitializeCompletion { Error := 1, ErrorMessage := "no fill" }
        { rewarded_video_status_ := AdMobStatus.kAdMobStatusAvailable
          listener_ := RewardedVideoListener.new }).1.rewarded_video_status_
      = AdMobStatus.kAdMobStatusError :=
  ⟨by decide,
   (completion_error_sets_status_error
      { rewarded_video_status_ := AdMobStatus.kAdMobStatusAvailable
        listener_ := RewardedVideoListener.new }
      { Error := 1, ErrorMessage := "no fill" } (by decide)).1⟩

/-- C2: with a future that reports no error, InitializeCompletion registers the
listener, issues exactly one request, the load request, and leaves the status
at kAdMobStatusLoading; LoadNewRewardedVideoCompletion sets the status to
kAdMobStatusAvailable; ShowRewardedVideoCompletion changes neither the status
nor the listener and makes no call.  Initialize sets the status to
kAdMobStatusInitializing.  All of this for every prior helper state. -/
theorem completion_success_table (helper : AdMobHelper) (completed_future : Future)
    (hok : completed_future.Error = 0) :
    ((helper.InitializeCompletion completed_future).2
        = [SdkCall.SetListener,
           SdkCall.LoadAd kRewardedVideoAdUnit
             Completion.LoadNewRewardedVideoCompletion] ∧
      requests (helper.InitializeCompletion completed_future).2
        = [SdkCall.LoadAd kRewardedVideoAdUnit
             Completion.LoadNewRewardedVideoCompletion] ∧
      (helper.InitializeCompletion completed_future).1.rewarded_video_status_
        = AdMobStatus.kAdMobStatusLoading ∧
      (helper.InitializeCompletion completed_future).1.listener_ = helper.listener_) ∧
    ((helper.LoadNewRewardedVideoCompletion completed_future).1.rewarded_video_status_
        = AdMobStatus.kAdMobStatusAvailable ∧
      (helper.LoadNewRewardedVideoCompletion completed_future).1.listener_
        = helper.listener_) ∧
    helper.ShowRewardedVideoCompletion completed_future = (helper, []) ∧
    helper.Initialize.1.rewarded_video_status_ = AdMobStatus.kAdMobStatusInitializing := by
  simp [AdMobHelper.InitializeCompletion, AdMobHelper.LoadNewRewardedVideoCompletion,
    AdMobHelper.ShowRewardedVideoCompletion, AdMobHelper.LoadNewRewardedVideo,
    AdMobHelper.Initialize, requests, SdkCall.isRequest, hok]

/-- Witness of C2: a helper in the error state receives a successful
InitializeCompletion and is loading afterwards. -/
theorem completion_success_table_witness :
    ({ Error := 0, ErrorMessage := "" } : Future).Error = 0 ∧
    (AdMobHelper.InitializeCompletion { Error := 0, ErrorMessage := "" }
        { rewarded_video_status_ := AdMobStatus.kAdMobStatusError
          listener_ := RewardedVideoListener.new }).1.rewarded_video_status_
      = AdMobStatus.kAdMobStatusLoading :=
  ⟨by decide,
   (completion_success_table
      { rewarded_video_status_ := AdMobStatus.kAdMobStatusError
        listener_ := RewardedVideoListener.new }
      { Error := 0, ErrorMessage := "" } (by decide)).1.2.2.1⟩

/-! ## Showing a video -/

/-- C3: when the status is not kAdMobStatusAvailable, ShowRewardedVideo leaves
the helper as it was, in particular the status and the listener flag
expecting_state_change, and issues no request to the SDK: its only call is the
error log. -/
theorem show_rejected_unless_available (helper : AdMobHelper)
    (hna : helper.rewarded_video_status_ ≠ AdMobStatus.kAdMobStatusAvailable) :
    helper.ShowRewardedVideo.1 = helper ∧
    helper.ShowRewardedVideo.1.rewarded_video_status_ = helper.rewarded_video_status_ ∧
    helper.ShowRewardedVideo.1.listener_.expecting_state_change_
      = helper.listener_.expecting_state_change_ ∧
    requests helper.ShowRewardedVideo.2 = [] ∧
    (∀ c, SdkCall.Show c ∉ helper.ShowRewardedVideo.2) := by
  simp [AdMobHelper.ShowRewardedVideo, hna, requests, SdkCall.isRequest]

/-- Witness of C3: a helper that is still loading. -/
theorem show_rejected_unless_available_witness :
    AdMobStatus.kAdMobStatusLoading ≠ AdMobStatus.kAdMobStatusAvailable ∧
    requests (AdMobHelper.ShowRewardedVideo
      { rewarded_video_status_ := AdMobStatus.kAdMobStatusLoading
        listener_ := RewardedVideoListener.new }).2 = [] :=
  ⟨by decide,
   (show_rejected_unless_available
      { rewarded_video_status_ := AdMobStatus.kAdMobStatusLoading
        listener_ := RewardedVideoListener.new } (by decide)).2.2.2.1⟩

/-- C4: when the status is kAdMobStatusAvailable, ShowRewardedVideo sets the
status to kAdMobStatusShowing and the listener flag expecting_state_change to
true, and its calls are exactly one show request whose completion is
ShowRewardedVideoCompletion; the presentation state and the earned-reward
fields of the listener are unchanged. -/
theorem show_when_available (helper : AdMobHelper)
    (hav : helper.rewarded_video_status_ = AdMobStatus.kAdMobStatusAvailable) :
    helper.ShowRewardedVideo.1.rewarded_video_status_ = AdMobStatus.kAdMobStatusShowing ∧
    helper.ShowRewardedVideo.1.listener_.expecting_state_change_ = true ∧
    helper.ShowRewardedVideo.2 = [SdkCall.Show Completion.ShowRewardedVideoCompletion] ∧
    helper.ShowRewardedVideo.1.listener_.presentation_state_
      = helper.listener_.presentation_state_ ∧
    helper.ShowRewardedVideo.1.listener_.earned_reward_ = helper.listener_.earned_reward_ ∧
    helper.ShowRewardedVideo.1.listener_.reward_item_ = helper.listener_.reward_item_ := by
  simp [AdMobHelper.ShowRewardedVideo, hav,
    RewardedVideoListener.set_expecting_state_change]

/-- Witness of C4: a helper whose video is available. -/
theorem show_when_available_witness :
    AdMobStatus.kAdMobStatusAvailable = AdMobStatus.kAdMobStatusAvailable ∧
    (AdMobHelper.ShowRewardedVideo
      { rewarded_video_status_ := AdMobStatus.kAdMobStatusAvailable
        listener_ := RewardedVideoListener.new }).2
      = [SdkCall.Show Completion.ShowRewardedVideoCompletion] :=
  ⟨rfl,
   (show_when_available
      { rewarded_video_status_ := AdMobStatus.kAdMobStatusAvailable
        listener_ := RewardedVideoListener.new } rfl).2.2.1⟩

/-- C5: CheckShowRewardedVideo returns false exactly when the status is
kAdMobStatusLoading, or the status is kAdMobStatusShowing and the listener
still expects a state change or its presentation state is not
kPresentationStateHidden; in every other helper state it returns true. -/
theorem check_show_result (helper : AdMobHelper) :
    (helper.CheckShowRewardedVideo.1 = false ↔
      (helper.rewarded_video_status_ = AdMobStatus.kAdMobStatusLoading ∨
        (helper.rewarded_video_status_ = AdMobStatus.kAdMobStatusShowing ∧
          (helper.listener_.expecting_state_change_ = true ∨
            helper.listener_.presentation_state_
              ≠ PresentationState.kPresentationStateHidden)))) ∧
    (helper.CheckShowRewardedVideo.1 = true ↔
      (helper.rewarded_video_status_ = AdMobStatus.kAdMobStatusUninitialized ∨
        helper.rewarded_video_status_ = AdMobStatus.kAdMobStatusInitializing ∨
        helper.rewarded_video_status_ = AdMobStatus.kAdMobStatusAvailable ∨
        helper.rewarded_video_status_ = AdMobStatus.kAdMobStatusError ∨
        (helper.rewarded_video_status_ = AdMobStatus.kAdMobStatusShowing ∧
          helper.listener_.expecting_state_change_ = false ∧
          helper.listener_.presentation_state_
            = PresentationState.kPresentationStateHidden))) := by
  obtain ⟨status, ⟨earned, expecting, presentation, reward⟩⟩ := helper
  cases status <;> cases expecting <;> cases presentation <;>
    simp [AdMobHelper.CheckShowRewardedVideo]

/-- C8: no completion callback retries.  For every helper state and every
completed future, LoadNewRewardedVideoCompletion and
ShowRewardedVideoCompletion issue no request at all, and InitializeCompletion
issues none when the future reports an error; the only request a callback
issues is the single load request of an InitializeCompletion without error. -/
theorem callbacks_issue_no_retry (helper : AdMobHelper) (completed_future : Future) :
    requests (helper.InitializeCompletion completed_future).2
      = (if completed_future.Error ≠ 0 then []
         else [SdkCall.LoadAd kRewardedVideoAdUnit
                 Completion.LoadNewRewardedVideoCompletion]) ∧
    requests (helper.LoadNewRewardedVideoCompletion completed_future).2 = [] ∧
    requests (helper.ShowRewardedVideoCompletion completed_future).2 = [] := by
  by_cases h : completed_future.Error = 0 <;>
    simp [AdMobHelper.InitializeCompletion, AdMobHelper.LoadNewRewardedVideoCompletion,
      AdMobHelper.ShowRewardedVideoCompletion, AdMobHelper.LoadNewRewardedVideo,
      requests, SdkCall.isRequest, h]

/-! ## Runs -/

theorem System.runs_append (s : System) (es later : List HelperEvent) :
    s.runs (es ++ later) = (s.runs es).runs later := by
  induction es generalizing s with
  | nil => rfl
  | cons e es ih => exact ih (s.exec e)

theorem System.admits_append (s : System) (es later : List HelperEvent) :
    s.admits (es ++ later) = (s.admits es && (s.runs es).admits later) := by
  induction es generalizing s with
  | nil => simp [System.admits, System.runs]
  | cons e es ih => simp [System.admits, System.runs, ih, Bool.and_assoc]

theorem System.coherent_boot (helper : AdMobHelper) : (System.boot helper).Coherent := by
  left
  simp [System.boot, System.start, System.issue, AdMobHelper.Initialize,
    SdkCall.completion]

/-- Only show requests stay outstanding when one completion is taken away. -/
theorem System.erase_show {l : List Completion}
    (h : ∀ c ∈ l, c = Completion.ShowRewardedVideoCompletion) (d : Completion) :
    ∀ c ∈ l.erase d, c = Completion.ShowRewardedVideoCompletion :=
  fun c hc => h c (List.mem_of_mem_erase hc)

theorem System.coherent_exec {s : System} (hs : s.Coherent) {e : HelperEvent}
    (he : s.allows e = true) : (s.exec e).Coherent := by
  cases e with
  | ShowRewardedVideo =>
    rcases hs with ⟨ho, hst⟩ | ⟨ho, hst⟩ | ho
    · left
      simp [System.exec, System.issue, AdMobHelper.ShowRewardedVideo, hst, ho,
        SdkCall.completion]
    · right; left
      simp [System.exec, System.issue, AdMobHelper.ShowRewardedVideo, hst, ho,
        SdkCall.completion]
    · right; right
      by_cases hav : s.helper.rewarded_video_status_ = AdMobStatus.kAdMobStatusAvailable
      · simp only [System.Coherent, System.exec, System.issue,
          AdMobHelper.ShowRewardedVideo, hav, ne_eq, not_true_eq_false, if_false,
          List.filterMap_cons, List.filterMap_nil, SdkCall.completion, List.mem_append,
          List.mem_singleton]
        intro c hc
        rcases hc with hc | hc
        · exact ho c hc
        · exact hc
      · simpa [System.exec, System.issue, AdMobHelper.ShowRewardedVideo, hav,
          SdkCall.completion] using ho
  | CheckShowRewardedVideo =>
    rcases hs with ⟨ho, hst⟩ | ⟨ho, hst⟩ | ho
    · left
      simp [System.exec, AdMobHelper.CheckShowRewardedVideo, hst, ho]
    · right; left
      simp [System.exec, AdMobHelper.CheckShowRewardedVideo, hst, ho]
    · right; right
      simpa [System.exec] using ho
  | OnPresentationStateChanged state =>
    rcases hs with ⟨ho, hst⟩ | ⟨ho, hst⟩ | ho
    · left; exact ⟨ho, hst⟩
    · right; left; exact ⟨ho, hst⟩
    · right; right; exact ho
  | OnRewarded reward =>
    rcases hs with ⟨ho, hst⟩ | ⟨ho, hst⟩ | ho
    · left; exact ⟨ho, hst⟩
    · right; left; exact ⟨ho, hst⟩
    · right; right; exact ho
  | Completed c completed_future =>
    have hmem : c ∈ s.outstanding := by simpa [System.allows] using he
    rcases hs with ⟨ho, hst⟩ | ⟨ho, hst⟩ | ho
    · rw [ho, List.mem_singleton] at hmem
      subst hmem
      by_cases herr : completed_future.Error = 0
      · right; left
        simp [System.exec, System.issue, AdMobHelper.complete,
          AdMobHelper.InitializeCompletion, AdMobHelper.LoadNewRewardedVideo, herr, ho,
          SdkCall.completion]
      · right; right
        simp [System.exec, System.issue, AdMobHelper.complete,
          AdMobHelper.InitializeCompletion, herr, ho, SdkCall.completion]
    · rw [ho, List.mem_singleton] at hmem
      subst hmem
      right; right
      by_cases herr : completed_future.Error = 0 <;>
        simp [System.exec, System.issue, AdMobHelper.complete,
          AdMobHelper.LoadNewRewardedVideoCompletion, herr, ho, SdkCall.completion]
    · have hc := ho c hmem
      subst hc
      right; right
      have hrest := System.erase_show ho Completion.ShowRewardedVideoCompletion
      by_cases herr : completed_future.Error = 0
      · simpa [System.exec, System.issue, AdMobHelper.complete,
          AdMobHelper.ShowRewardedVideoCompletion, herr, SdkCall.completion] using hrest
      · simpa [System.exec, System.issue, AdMobHelper.complete,
          AdMobHelper.ShowRewardedVideoCompletion, herr, SdkCall.completion] using hrest

theorem System.coherent_runs {s : System} (hs : s.Coherent) (es : List HelperEvent)
    (hes : s.admits es = true) : (s.runs es).Coherent := by
  induction es generalizing s with
  | nil => exact hs
  | cons e es ih =>
    simp only [System.admits, Bool.and_eq_true] at hes
    exact ih (System.coherent_exec hs hes.1) hes.2

/-- In the error state with only show requests outstanding, an admissible
event keeps that state and issues no request. -/
theorem System.failed_exec {s : System} (hs : s.Failed) {e : HelperEvent}
    (he : s.allows e = true) :
    (s.exec e).Failed ∧ requests (s.exec e).calls = requests s.calls := by
  obtain ⟨ho, hst⟩ := hs
  cases e with
  | ShowRewardedVideo =>
    simp [System.exec, System.issue, System.Failed, AdMobHelper.ShowRewardedVideo, hst,
      SdkCall.completion, requests, SdkCall.isRequest]
    exact ho
  | CheckShowRewardedVideo =>
    simp [System.exec, System.Failed, AdMobHelper.CheckShowRewardedVideo, hst]
    exact ho
  | OnPresentationStateChanged state => exact ⟨⟨ho, hst⟩, rfl⟩
  | OnRewarded reward => exact ⟨⟨ho, hst⟩, rfl⟩
  | Completed c completed_future =>
    have hmem : c ∈ s.outstanding := by simpa [System.allows] using he
    have hc := ho c hmem
    subst hc
    have hrest := System.erase_show ho Completion.ShowRewardedVideoCompletion
    by_cases herr : completed_future.Error = 0
    · simp [System.exec, System.issue, System.Failed, AdMobHelper.complete,
        AdMobHelper.ShowRewardedVideoCompletion, herr, SdkCall.completion, hst]
      exact hrest
    · simp [System.exec, System.issue, System.Failed, AdMobHelper.complete,
        AdMobHelper.ShowRewardedVideoCompletion, herr, SdkCall.completion, requests,
        SdkCall.isRequest]
      exact hrest

theorem System.failed_runs {s : System} (hs : s.Failed) (es : List HelperEvent)
    (hes : s.admits es = true) :
    (s.runs es).Failed ∧ requests (s.runs es).calls = requests s.calls := by
  induction es generalizing s with
  | nil => exact ⟨hs, rfl⟩
  | cons e es ih =>
    simp only [System.admits, Bool.and_eq_true] at hes
    have h1 := System.failed_exec hs hes.1
    have h2 := ih h1.1 hes.2
    exact ⟨h2.1, h2.2.trans h1.2⟩

/-- A coherent system whose status is the error state has only show requests
outstanding. -/
theorem System.coherent_failed {s : System} (hs : s.Coherent)
    (herr : s.helper.rewarded_video_status_ = AdMobStatus.kAdMobStatusError) :
    s.Failed := by
  rcases hs with ⟨_, hst⟩ | ⟨_, hst⟩ | ho
  · rw [herr] at hst; cases hst
  · rw [herr] at hst; cases hst
  · exact ⟨ho, herr⟩

/-- C7: take any helper, call Initialize once, and let any sequence `es` of
ShowRewardedVideo calls, CheckShowRewardedVideo calls, listener callbacks and
completion callbacks follow, then any further such sequence `later`, where
each completion callback answers a request the helper issued and that has not
been completed before.  If the status is kAdMobStatusError after `es`, it is
kAdMobStatusError after `later` as well, and the requests issued to the SDK
are the same as after `es`: none is added. -/
theorem error_state_is_absorbing (helper : AdMobHelper) (es later : List HelperEvent)
    (hadm : (System.boot helper).admits (es ++ later) = true)
    (herr : ((System.boot helper).runs es).helper.rewarded_video_status_
      = AdMobStatus.kAdMobStatusError) :
    ((System.boot helper).runs (es ++ later)).helper.rewarded_video_status_
      = AdMobStatus.kAdMobStatusError ∧
    requests ((System.boot helper).runs (es ++ later)).calls
      = requests ((System.boot helper).runs es).calls := by
  rw [System.admits_append, Bool.and_eq_true] at hadm
  have hco := System.coherent_runs (System.coherent_boot helper) es hadm.1
  have hfail := System.failed_runs (System.coherent_failed hco herr) later hadm.2
  rw [System.runs_append]
  exact ⟨hfail.1.2, hfail.2⟩

/-- Witness of C7: a fresh helper is initialised, the video loads and is shown,
the show request fails; afterwards the game asks to show again and polls, and
the listener reports the ad hidden. -/
theorem error_state_is_absorbing_witness :
    (System.boot AdMobHelper.new).admits
      ([HelperEvent.Completed Completion.InitializeCompletion
          { Error := 0, ErrorMessage := "" },
        HelperEvent.Completed Completion.LoadNewRewardedVideoCompletion
          { Error := 0, ErrorMessage := "" },
        HelperEvent.ShowRewardedVideo,
        HelperEvent.Completed Completion.ShowRewardedVideoCompletion
          { Error := 2, ErrorMessage := "no activity" }] ++
       [HelperEvent.ShowRewardedVideo,
        HelperEvent.OnPresentationStateChanged
          PresentationState.kPresentationStateHidden,
        HelperEvent.CheckShowRewardedVideo]) = true ∧
    ((System.boot AdMobHelper.new).runs
      ([HelperEvent.Completed Completion.InitializeCompletion
          { Error := 0, ErrorMessage := "" },
        HelperEvent.Completed Completion.LoadNewRewardedVideoCompletion
          { Error := 0, ErrorMessage := "" },
        HelperEvent.ShowRewardedVideo,
        HelperEvent.Completed Completion.ShowRewardedVideoCompletion
          { Error := 2, ErrorMessage := "no activity" }] ++
       [HelperEvent.ShowRewardedVideo,
        HelperEvent.OnPresentationStateChanged
          PresentationState.kPresentationStateHidden,
        HelperEvent.CheckShowRewardedVideo])).helper.rewarded_video_status_
      = AdMobStatus.kAdMobStatusError :=
  ⟨by decide,
   (error_state_is_absorbing AdMobHelper.new
      [HelperEvent.Completed Completion.InitializeCompletion
         { Error := 0, ErrorMessage := "" },
       HelperEvent.Completed Completion.LoadNewRewardedVideoCompletion
         { Error := 0, ErrorMessage := "" },
       HelperEvent.ShowRewardedVideo,
       HelperEvent.Completed Completion.ShowRewardedVideoCompletion
         { Error := 2, ErrorMessage := "no activity" }]
      [HelperEvent.ShowRewardedVideo,
       HelperEvent.OnPresentationStateChanged
         PresentationState.kPresentationStateHidden,
       HelperEvent.CheckShowRewardedVideo]
      (by decide) (by decide)).1⟩

/-! ## The Back button of the options menu -/

/-- A button hands back the event of its widget. -/
theorem GameMenuState.ImageButtonWithLabel_event (tex label : String) (sound : Sound)
    (widget : flatui.Event) (s : GameMenuState) :
    (GameMenuState.ImageButtonWithLabel tex label sound widget s).1 = widget := by
  unfold GameMenuState.ImageButtonWithLabel GameMenuState.PlayButtonSound
  dsimp only
  split <;> rfl

theorem GameMenuState.OptionMenuUntilBack_event (config : Config) (input : UiInput)
    (s : GameMenuState) :
    (GameMenuState.OptionMenuUntilBack config input s).1 = input.back := by
  unfold GameMenuState.OptionMenuUntilBack
  exact GameMenuState.ImageButtonWithLabel_event _ _ _ _ _

/-- The layout pass leaves the local `next_state` of `OptionMenu` alone. -/
theorem GameMenuState.OptionMenuDefinition_layoutPass (config : Config) (input : UiInput)
    (st : GameMenuState × MenuState) :
    (GameMenuState.OptionMenuDefinition config input.layoutPass st).2 = st.2 := by
  unfold GameMenuState.OptionMenuDefinition
  dsimp only
  rw [GameMenuState.OptionMenuUntilBack_event]
  have h : flatui.test input.layoutPass.back flatui.kEventWentUp = false := by
    simp [UiInput.layoutPass, flatui.test, flatui.kEventNone, flatui.kEventWentUp]
  simp [GameMenuState.OptionMenuBack, h]

/-- One call of `OptionMenu` is the Back handler applied to the menu the
render pass hands it, followed by the three closing `EndGroup` calls. -/
theorem GameMenuState.OptionMenu_eq (config : Config) (input : UiInput)
    (s : GameMenuState) :
    GameMenuState.OptionMenu config input s
      = ((((GameMenuState.OptionMenuBack input.back
              ((GameMenuState.OptionMenu.atBack config input s).2,
                MenuState.kMenuStateOptions)).1.call Call.EndGroup).call
            Call.EndGroup).call Call.EndGroup,
         (GameMenuState.OptionMenuBack input.back
            ((GameMenuState.OptionMenu.atBack config input s).2,
              MenuState.kMenuStateOptions)).2) := by
  have hl : GameMenuState.OptionMenuDefinition config input.layoutPass
        (s, MenuState.kMenuStateOptions)
      = ((GameMenuState.OptionMenuDefinition config input.layoutPass
            (s, MenuState.kMenuStateOptions)).1, MenuState.kMenuStateOptions) :=
    Prod.ext rfl (GameMenuState.OptionMenuDefinition_layoutPass config input _)
  unfold GameMenuState.OptionMenu flatui.Run
  rw [hl]
  unfold GameMenuState.OptionMenuDefinition
  dsimp only
  rw [GameMenuState.OptionMenuUntilBack_event]
  rfl

/-- C9: one call of OptionMenu.  Let the page be the options page the handler
of the Back button finds in the render pass.  If Back reports kEventWentUp and
the page is kOptionsMenuStateMain or kOptionsMenuStateSushi, OptionMenu
returns kMenuStateStart and the options page is unchanged; if Back reports
kEventWentUp on any other page, the options page becomes
kOptionsMenuStateMain and OptionMenu returns kMenuStateOptions; if Back does
not report kEventWentUp, OptionMenu returns kMenuStateOptions (and the
handler leaves the page as it is). -/
theorem option_menu_back_button (config : Config) (input : UiInput) (s : GameMenuState) :
    (GameMenuState.OptionMenu config input s).2
      = (if flatui.test input.back flatui.kEventWentUp = true ∧
            ((GameMenuState.OptionMenu.atBack config input s).2.options_menu_state_
                = OptionsMenuState.kOptionsMenuStateMain ∨
              (GameMenuState.OptionMenu.atBack config input s).2.options_menu_state_
                = OptionsMenuState.kOptionsMenuStateSushi)
         then MenuState.kMenuStateStart else MenuState.kMenuStateOptions) ∧
    (GameMenuState.OptionMenu config input s).1.options_menu_state_
      = (if flatui.test input.back flatui.kEventWentUp = true ∧
            ¬((GameMenuState.OptionMenu.atBack config input s).2.options_menu_state_
                = OptionsMenuState.kOptionsMenuStateMain ∨
              (GameMenuState.OptionMenu.atBack config input s).2.options_menu_state_
                = OptionsMenuState.kOptionsMenuStateSushi)
         then OptionsMenuState.kOptionsMenuStateMain
         else (GameMenuState.OptionMenu.atBack config input s).2.options_menu_state_) := by
  rw [GameMenuState.OptionMenu_eq]
  generalize (GameMenuState.OptionMenu.atBack config input s).2 = t
  cases hb : flatui.test input.back flatui.kEventWentUp <;>
    cases hp : t.options_menu_state_ <;>
    simp [GameMenuState.OptionMenuBack, GameMenuState.SaveData, GameMenuState.call, hb, hp]

/-- C10: the handler of the Back button, applied to any menu with an event that
reports kEventWentUp or not, makes exactly one call, SaveData, when the event
reports kEventWentUp and the page it finds is kOptionsMenuStateAudio or
kOptionsMenuStateRendering, and no call otherwise.  SaveData is called on the
menu as the handler finds it, so it still sees the audio or rendering page,
while the page is kOptionsMenuStateMain once the handler is done (the handler
resets every page but the main and the sushi page).  Within one
call of OptionMenu the calls are those made up to the Back button, then this
SaveData if any, then the three closing EndGroup calls. -/
theorem back_button_saves_data (config : Config) (input : UiInput) (s : GameMenuState)
    (event : flatui.Event) (t : GameMenuState) (next_state : MenuState) :
    (GameMenuState.OptionMenuBack event (t, next_state)).1.calls
      = t.calls ++
          (if flatui.test event flatui.kEventWentUp = true ∧
              (t.options_menu_state_ = OptionsMenuState.kOptionsMenuStateAudio ∨
                t.options_menu_state_ = OptionsMenuState.kOptionsMenuStateRendering)
           then [Call.SaveData t.saved] else []) ∧
    t.saved.options_menu_state_ = t.options_menu_state_ ∧
    (GameMenuState.OptionMenuBack event (t, next_state)).1.options_menu_state_
      = (if flatui.test event flatui.kEventWentUp = true ∧
            ¬(t.options_menu_state_ = OptionsMenuState.kOptionsMenuStateMain ∨
              t.options_menu_state_ = OptionsMenuState.kOptionsMenuStateSushi)
         then OptionsMenuState.kOptionsMenuStateMain
         else t.options_menu_state_) ∧
    (GameMenuState.OptionMenu config input s).1.calls
      = (GameMenuState.OptionMenu.atBack config input s).2.calls ++
          (if flatui.test input.back flatui.kEventWentUp = true ∧
              ((GameMenuState.OptionMenu.atBack config input s).2.options_menu_state_
                  = OptionsMenuState.kOptionsMenuStateAudio ∨
                (GameMenuState.OptionMenu.atBack config input s).2.options_menu_state_
                  = OptionsMenuState.kOptionsMenuStateRendering)
           then [Call.SaveData (GameMenuState.OptionMenu.atBack config input s).2.saved]
           else []) ++
          [Call.EndGroup, Call.EndGroup, Call.EndGroup] := by
  refine ⟨?_, rfl, ?_, ?_⟩
  · cases hb : flatui.test event flatui.kEventWentUp <;>
      cases hp : t.options_menu_state_ <;>
      simp [GameMenuState.OptionMenuBack, GameMenuState.SaveData, GameMenuState.call, hb, hp]
  · cases hb : flatui.test event flatui.kEventWentUp <;>
      cases hp : t.options_menu_state_ <;>
      simp [GameMenuState.OptionMenuBack, GameMenuState.SaveData, GameMenuState.call, hb, hp]
  · rw [GameMenuState.OptionMenu_eq]
    generalize (GameMenuState.OptionMenu.atBack config input s).2 = u
    cases hb : flatui.test input.back flatui.kEventWentUp <;>
      cases hp : u.options_menu_state_ <;>
      simp [GameMenuState.OptionMenuBack, GameMenuState.SaveData, GameMenuState.call, hb, hp]

/-! ## The rendering page -/

/-- C11: one pass of OptionMenuRendering over the world of six rendering flags.
Each of the three flags of normal rendering ends as its check box leaves it:
negated when the box toggled (its event went up), as before otherwise.  The
same holds for the three cardboard flags when a head mounted display is
supported; when it is not, the three cardboard flags are unchanged whatever
the input.  The selected sushi and the controller flag of the world are not
touched. -/
theorem option_menu_rendering_flags (config : Config) (input : UiInput)
    (s : GameMenuState) :
    ((GameMenuState.OptionMenuRendering config input s).world_.RenderingOptionEnabled
          RenderingOption.kShadowEffect
        = (if flatui.test input.shadow flatui.kEventWentUp then
            !s.world_.RenderingOptionEnabled RenderingOption.kShadowEffect
           else s.world_.RenderingOptionEnabled RenderingOption.kShadowEffect) ∧
      (GameMenuState.OptionMenuRendering config input s).world_.RenderingOptionEnabled
          RenderingOption.kPhongShading
        = (if flatui.test input.phong flatui.kEventWentUp then
            !s.world_.RenderingOptionEnabled RenderingOption.kPhongShading
           else s.world_.RenderingOptionEnabled RenderingOption.kPhongShading) ∧
      (GameMenuState.OptionMenuRendering config input s).world_.RenderingOptionEnabled
          RenderingOption.kSpecularEffect
        = (if flatui.test input.specular flatui.kEventWentUp then
            !s.world_.RenderingOptionEnabled RenderingOption.kSpecularEffect
           else s.world_.RenderingOptionEnabled RenderingOption.kSpecularEffect)) ∧
    ((GameMenuState.OptionMenuRendering config input s).world_.RenderingOptionEnabledCardboard
          RenderingOption.kShadowEffect
        = (if config.SupportsHeadMountedDisplay = true ∧
              flatui.test input.shadow_cardboard flatui.kEventWentUp = true then
            !s.world_.RenderingOptionEnabledCardboard RenderingOption.kShadowEffect
           else s.world_.RenderingOptionEnabledCardboard RenderingOption.kShadowEffect) ∧
      (GameMenuState.OptionMenuRendering config input s).world_.RenderingOptionEnabledCardboard
          RenderingOption.kPhongShading
        = (if config.SupportsHeadMountedDisplay = true ∧
              flatui.test input.phong_cardboard flatui.kEventWentUp = true then
            !s.world_.RenderingOptionEnabledCardboard RenderingOption.kPhongShading
           else s.world_.RenderingOptionEnabledCardboard RenderingOption.kPhongShading) ∧
      (GameMenuState.OptionMenuRendering config input s).world_.RenderingOptionEnabledCardboard
          RenderingOption.kSpecularEffect
        = (if config.SupportsHeadMountedDisplay = true ∧
              flatui.test input.specular_cardboard flatui.kEventWentUp = true then
            !s.world_.RenderingOptionEnabledCardboard RenderingOption.kSpecularEffect
           else s.world_.RenderingOptionEnabledCardboard RenderingOption.kSpecularEffect)) ∧
    (GameMenuState.OptionMenuRendering config input s).world_.sushi_index
      = s.world_.sushi_index ∧
    (GameMenuState.OptionMenuRendering config input s).world_.hmd_controller_enabled
      = s.world_.hmd_controller_enabled := by
  cases hh : config.SupportsHeadMountedDisplay <;>
    simp [GameMenuState.OptionMenuRendering, GameMenuState.SaveData, GameMenuState.call,
      World.RenderingOptionEnabled, World.RenderingOptionEnabledCardboard,
      World.SetRenderingOption, World.SetRenderingOptionCardboard, flatui.CheckBox, hh]

/-! ## Polling twice -/

/-- C12: CheckShowRewardedVideo changes the helper in exactly one case: when the
status is kAdMobStatusShowing, the listener does not expect a state change and
its presentation state is kPresentationStateHidden, the status becomes
kAdMobStatusAvailable and nothing else changes; in every other state the
helper is returned as it was.  The listener is never modified.  A second call
directly after a call that returned true returns true as well. -/
theorem check_show_frame (helper : AdMobHelper) :
    helper.CheckShowRewardedVideo.2
      = (if helper.rewarded_video_status_ = AdMobStatus.kAdMobStatusShowing ∧
            helper.listener_.expecting_state_change_ = false ∧
            helper.listener_.presentation_state_
              = PresentationState.kPresentationStateHidden
         then { helper with rewarded_video_status_ := AdMobStatus.kAdMobStatusAvailable }
         else helper) ∧
    helper.CheckShowRewardedVideo.2.listener_ = helper.listener_ ∧
    (helper.CheckShowRewardedVideo.1 = false ∨
      helper.CheckShowRewardedVideo.2.CheckShowRewardedVideo.1 = true) := by
  obtain ⟨status, ⟨earned, expecting, presentation, reward⟩⟩ := helper
  cases status <;> cases expecting <;> cases presentation <;>
    simp [AdMobHelper.CheckShowRewardedVideo]

/-! ## The sushi page -/

/-- One turn of the inner loop of `OptionMenuSushi` is one selection button. -/
theorem SushiSpec.button_eq (config : Config) (input : UiInput) (s : GameMenuState)
    (k : Nat) (h : k < config.sushi_config.length) :
    (if flatui.test (GameMenuState.ImageButtonWithLabel "button_back_"
          (config.sushi_config.get ⟨k, h⟩).name Sound.sound_click_ (input.sushi k) s).1
        flatui.kEventWentUp = true then
      { (GameMenuState.ImageButtonWithLabel "button_back_"
          (config.sushi_config.get ⟨k, h⟩).name Sound.sound_click_ (input.sushi k) s).2 with
        world_ := { (GameMenuState.ImageButtonWithLabel "button_back_"
            (config.sushi_config.get ⟨k, h⟩).name Sound.sound_click_
            (input.sushi k) s).2.world_ with sushi_index := k } }
    else
      (GameMenuState.ImageButtonWithLabel "button_back_"
        (config.sushi_config.get ⟨k, h⟩).name Sound.sound_click_ (input.sushi k) s).2)
    = SushiSpec.button config input s k := by
  have hl : SushiSpec.label config k = (config.sushi_config.get ⟨k, h⟩).name := by
    simp [SushiSpec.label, List.getD_eq_getElem, h]
  cases hb : flatui.test (input.sushi k) flatui.kEventWentUp <;>
    simp [GameMenuState.ImageButtonWithLabel, GameMenuState.PlayButtonSound,
      GameMenuState.call, SushiSpec.button, SushiSpec.buttonCalls, SushiSpec.select, hb, hl]

/-- The inner loop of `OptionMenuSushi`, entered at `j`, draws the buttons from
`i + j` on: those left of the `kSushiPerLine` of the line, and of the table. -/
theorem SushiSpec.line_eq (config : Config) (input : UiInput) (i : Nat) :
    ∀ (d j : Nat) (s : GameMenuState), GameMenuState.kSushiPerLine - j = d →
      GameMenuState.OptionMenuSushi.line config input i j s
        = (List.range' (i + j)
            (min (GameMenuState.kSushiPerLine - j)
              (config.sushi_config.length - (i + j)))).foldl
            (SushiSpec.button config input) s := by
  intro d
  induction d with
  | zero =>
    intro j s hd
    rw [GameMenuState.OptionMenuSushi.line, dif_neg (by omega), hd]
    simp
  | succ d ih =>
    intro j s hd
    by_cases hn : i + j < config.sushi_config.length
    · have hj : j < GameMenuState.kSushiPerLine := by omega
      rw [GameMenuState.OptionMenuSushi.line, dif_pos ⟨hj, hn⟩]
      dsimp only
      rw [SushiSpec.button_eq config input s (i + j) hn, ih (j + 1) _ (by omega)]
      have hm : min (GameMenuState.kSushiPerLine - j) (config.sushi_config.length - (i + j))
          = min (GameMenuState.kSushiPerLine - (j + 1))
              (config.sushi_config.length - (i + (j + 1))) + 1 := by
        omega
      rw [hm, List.range'_succ, List.foldl_cons]
      rfl
    · rw [GameMenuState.OptionMenuSushi.line, dif_neg (by omega)]
      have hm : min (GameMenuState.kSushiPerLine - j) (config.sushi_config.length - (i + j))
          = 0 := by
        omega
      rw [hm]
      rfl

/-- The outer loop of `OptionMenuSushi`, entered at the start `3 * r` of row
`r`, draws the rows from `r` on. -/
theorem SushiSpec.lines_eq (config : Config) (input : UiInput) :
    ∀ (d r : Nat) (s : GameMenuState), (config.sushi_config.length + 2) / 3 - r = d →
      GameMenuState.OptionMenuSushi.lines config input (3 * r) s
        = ((List.range' r ((config.sushi_config.length + 2) / 3 - r)).map
            (fun r => List.range' (3 * r) (min 3 (config.sushi_config.length - 3 * r)))).foldl
            (SushiSpec.row config input) s := by
  intro d
  induction d with
  | zero =>
    intro r s hd
    rw [GameMenuState.OptionMenuSushi.lines, if_neg (by omega), hd]
    rfl
  | succ d ih =>
    intro r s hd
    have hr : 3 * r < config.sushi_config.length := by omega
    have e : 3 * r + GameMenuState.kSushiPerLine = 3 * (r + 1) := by
      simp only [GameMenuState.kSushiPerLine]
      omega
    rw [GameMenuState.OptionMenuSushi.lines, if_pos hr]
    dsimp only
    rw [SushiSpec.line_eq config input (3 * r) GameMenuState.kSushiPerLine 0 _ rfl, e,
      ih (r + 1) _ (by omega), hd, List.range'_succ, List.map_cons, List.foldl_cons]
    have hd2 : (config.sushi_config.length + 2) / 3 - (r + 1) = d := by omega
    rw [hd2]
    rfl

/-- Buttons drawn one after the other append their calls and select in turn. -/
theorem SushiSpec.foldl_button (config : Config) (input : UiInput) (l : List Nat) :
    ∀ s : GameMenuState, l.foldl (SushiSpec.button config input) s
      = { s with
            calls := s.calls ++ l.flatMap (SushiSpec.buttonCalls config input)
            world_ := { s.world_ with
              sushi_index := l.foldl (SushiSpec.select input) s.world_.sushi_index } } := by
  induction l with
  | nil => intro s; simp
  | cons k l ih =>
    intro s
    rw [List.foldl_cons, ih]
    simp [SushiSpec.button, List.flatMap_cons, List.append_assoc]

/-- One row appends the calls of the row and selects through its buttons. -/
theorem SushiSpec.row_eq (config : Config) (input : UiInput) (s : GameMenuState)
    (r : List Nat) :
    SushiSpec.row config input s r
      = { s with
            calls := s.calls ++ SushiSpec.rowCalls config input r
            world_ := { s.world_ with
              sushi_index := r.foldl (SushiSpec.select input) s.world_.sushi_index } } := by
  rw [SushiSpec.row, SushiSpec.foldl_button]
  simp [GameMenuState.call, SushiSpec.rowCalls, List.append_assoc]

/-- Rows drawn one after the other. -/
theorem SushiSpec.foldl_row (config : Config) (input : UiInput) (rows : List (List Nat)) :
    ∀ s : GameMenuState, rows.foldl (SushiSpec.row config input) s
      = { s with
            calls := s.calls ++ rows.flatMap (SushiSpec.rowCalls config input)
            world_ := { s.world_ with
              sushi_index :=
                rows.flatten.foldl (SushiSpec.select input) s.world_.sushi_index } } := by
  induction rows with
  | nil => intro s; simp
  | cons r rows ih =>
    intro s
    rw [List.foldl_cons, ih, SushiSpec.row_eq]
    simp [List.flatMap_cons, List.append_assoc, List.foldl_append]

/-- The first `R` rows hold the indices below `3 * R`, as far as the table
goes, in increasing order. -/
theorem SushiSpec.rows_flatten_prefix (n : Nat) :
    ∀ R : Nat, ((List.range R).map
        (fun r => List.range' (3 * r) (min 3 (n - 3 * r)))).flatten
      = List.range (min n (3 * R)) := by
  intro R
  induction R with
  | zero => simp
  | succ R ih =>
    rw [List.range_succ, List.map_append, List.flatten_append, ih]
    simp only [List.map_cons, List.map_nil, List.flatten_cons, List.flatten_nil,
      List.append_nil]
    by_cases h : 3 * R ≤ n
    · have h1 : min n (3 * R) = 3 * R := by omega
      have h2 : min n (3 * (R + 1)) = min 3 (n - 3 * R) + 3 * R := by omega
      rw [h1, h2, List.range_eq_range', List.range_eq_range']
      have h3 := List.range'_append_1 0 (3 * R) (min 3 (n - 3 * R))
      rw [Nat.zero_add] at h3
      exact h3
    · have h1 : min 3 (n - 3 * R) = 0 := by omega
      have h2 : min n (3 * (R + 1)) = min n (3 * R) := by omega
      rw [h1, h2]
      simp

/-- The rows hold every index below `n` once, in increasing order. -/
theorem SushiSpec.rows_flatten (n : Nat) : (SushiSpec.rows n).flatten = List.range n := by
  rw [SushiSpec.rows, SushiSpec.rows_flatten_prefix]
  congr 1
  omega

theorem SushiSpec.rows_length (n : Nat) : (SushiSpec.rows n).length = (n + 2) / 3 := by
  simp [SushiSpec.rows]

/-- Row `r` holds the indices from `3 * r` on. -/
theorem SushiSpec.rows_getD (n r : Nat) (h : r < (SushiSpec.rows n).length) :
    (SushiSpec.rows n).getD r [] = List.range' (3 * r) (min 3 (n - 3 * r)) := by
  rw [List.getD_eq_getElem _ _ h]
  simp [SushiSpec.rows]

theorem SushiSpec.selected_succ (input : UiInput) (index n : Nat) :
    SushiSpec.selected input index (n + 1)
      = SushiSpec.select input (SushiSpec.selected input index n) n := by
  simp [SushiSpec.selected, List.range_succ, List.foldl_append]

/-- Without a press the selection stays. -/
theorem SushiSpec.selected_of_none (input : UiInput) (index : Nat) :
    ∀ n : Nat, (∀ k, k < n → flatui.test (input.sushi k) flatui.kEventWentUp = false) →
      SushiSpec.selected input index n = index := by
  intro n
  induction n with
  | zero => intro _; rfl
  | succ n ih =>
    intro h
    rw [SushiSpec.selected_succ, SushiSpec.select, h n (Nat.lt_succ_self n)]
    exact ih (fun k hk => h k (Nat.lt_succ_of_lt hk))

/-- With a press the selection is a pressed index that no pressed index
exceeds. -/
theorem SushiSpec.selected_of_some (input : UiInput) (index : Nat) :
    ∀ n k : Nat, k < n → flatui.test (input.sushi k) flatui.kEventWentUp = true →
      k ≤ SushiSpec.selected input index n ∧ SushiSpec.selected input index n < n ∧
      flatui.test (input.sushi (SushiSpec.selected input index n)) flatui.kEventWentUp
        = true := by
  intro n
  induction n with
  | zero => intro k hk; omega
  | succ n ih =>
    intro k hk hp
    rw [SushiSpec.selected_succ, SushiSpec.select]
    cases hn : flatui.test (input.sushi n) flatui.kEventWentUp
    · have hkn : k ≠ n := by
        intro e
        rw [e, hn] at hp
        cases hp
      obtain ⟨h1, h2, h3⟩ := ih k (by omega) hp
      simp only [Bool.false_eq_true, if_false]
      exact ⟨h1, by omega, h3⟩
    · simp only [if_true]
      exact ⟨by omega, by omega, hn⟩

/-- An index is selected only by a button of the table. -/
theorem SushiSpec.selected_lt_or_eq (input : UiInput) (index : Nat) :
    ∀ n : Nat, SushiSpec.selected input index n = index ∨
      SushiSpec.selected input index n < n := by
  intro n
  induction n with
  | zero => left; rfl
  | succ n ih =>
    rw [SushiSpec.selected_succ, SushiSpec.select]
    cases hn : flatui.test (input.sushi n) flatui.kEventWentUp
    · simp only [Bool.false_eq_true, if_false]
      rcases ih with h | h
      · left; exact h
      · right; omega
    · simp only [if_true]
      right; omega

/-- One pass of `OptionMenuSushi` draws the header, then the rows of the table,
and selects through the buttons in increasing order; nothing else changes. -/
theorem SushiSpec.option_menu_sushi_eq (config : Config) (input : UiInput)
    (s : GameMenuState) :
    GameMenuState.OptionMenuSushi config input s
      = { s with
            calls := s.calls ++
              [Call.StartGroup flatui.Layout.kLayoutVerticalCenter "menu",
                Call.Label (GameMenuState.SelectedSushi config s.world_).name,
                Call.Label (GameMenuState.SelectedSushi config s.world_).description,
                Call.EndGroup,
                Call.StartGroup flatui.Layout.kLayoutVerticalCenter ""] ++
              (SushiSpec.rows config.sushi_config.length).flatMap
                (SushiSpec.rowCalls config input) ++
              [Call.EndGroup]
            world_ := { s.world_ with
              sushi_index := SushiSpec.selected input s.world_.sushi_index
                config.sushi_config.length } } := by
  have h := SushiSpec.lines_eq config input _ 0
    (((((s.call (Call.StartGroup flatui.Layout.kLayoutVerticalCenter "menu")).call
      (Call.Label (GameMenuState.SelectedSushi config s.world_).name)).call
      (Call.Label (GameMenuState.SelectedSushi config s.world_).description)).call
      Call.EndGroup).call (Call.StartGroup flatui.Layout.kLayoutVerticalCenter "")) rfl
  rw [Nat.mul_zero, Nat.sub_zero, ← List.range_eq_range'] at h
  unfold GameMenuState.OptionMenuSushi
  dsimp only
  rw [h]
  have hr : (List.range ((config.sushi_config.length + 2) / 3)).map
      (fun r => List.range' (3 * r) (min 3 (config.sushi_config.length - 3 * r)))
      = SushiSpec.rows config.sushi_config.length := rfl
  rw [hr, SushiSpec.foldl_row, SushiSpec.rows_flatten]
  simp [GameMenuState.call, SushiSpec.selected, List.append_assoc]

/-- C13: one pass of OptionMenuSushi over a table of n sushi (the function is
total, so the pass terminates).  The menu afterwards is the menu before with
the calls of the header and of the rows appended and the selection updated.
The rows hold the indices 0..n-1 once each in increasing order, one button
per index; there are ceil(n/3) rows; every row but the last holds 3 buttons
and the last holds between 1 and 3.  The selected sushi_index is the value
before the pass when no button reported kEventWentUp, and otherwise an index
whose button did and that no such index exceeds; it is the value before or
less than n. -/
theorem option_menu_sushi_rows (config : Config) (input : UiInput) (s : GameMenuState) :
    GameMenuState.OptionMenuSushi config input s
      = { s with
            calls := s.calls ++
              [Call.StartGroup flatui.Layout.kLayoutVerticalCenter "menu",
                Call.Label (GameMenuState.SelectedSushi config s.world_).name,
                Call.Label (GameMenuState.SelectedSushi config s.world_).description,
                Call.EndGroup,
                Call.StartGroup flatui.Layout.kLayoutVerticalCenter ""] ++
              (SushiSpec.rows config.sushi_config.length).flatMap
                (SushiSpec.rowCalls config input) ++
              [Call.EndGroup]
            world_ := { s.world_ with
              sushi_index := SushiSpec.selected input s.world_.sushi_index
                config.sushi_config.length } } ∧
    (SushiSpec.rows config.sushi_config.length).flatten
      = List.range config.sushi_config.length ∧
    ((SushiSpec.rows config.sushi_config.length).length
        = (config.sushi_config.length + 2) / 3 ∧
      config.sushi_config.length ≤ 3 * (SushiSpec.rows config.sushi_config.length).length ∧
      3 * (SushiSpec.rows config.sushi_config.length).length
        < config.sushi_config.length + 3) ∧
    (∀ r, r + 1 < (SushiSpec.rows config.sushi_config.length).length →
      ((SushiSpec.rows config.sushi_config.length).getD r []).length = 3) ∧
    (∀ r, r + 1 = (SushiSpec.rows config.sushi_config.length).length →
      1 ≤ ((SushiSpec.rows config.sushi_config.length).getD r []).length ∧
      ((SushiSpec.rows config.sushi_config.length).getD r []).length ≤ 3) ∧
    ((∀ k, k < config.sushi_config.length →
        flatui.test (input.sushi k) flatui.kEventWentUp = false) →
      (GameMenuState.OptionMenuSushi config input s).world_.sushi_index
        = s.world_.sushi_index) ∧
    (∀ k, k < config.sushi_config.length →
      flatui.test (input.sushi k) flatui.kEventWentUp = true →
      k ≤ (GameMenuState.OptionMenuSushi config input s).world_.sushi_index ∧
      (GameMenuState.OptionMenuSushi config input s).world_.sushi_index
        < config.sushi_config.length ∧
      flatui.test
        (input.sushi (GameMenuState.OptionMenuSushi config input s).world_.sushi_index)
        flatui.kEventWentUp = true) ∧
    ((GameMenuState.OptionMenuSushi config input s).world_.sushi_index
        = s.world_.sushi_index ∨
      (GameMenuState.OptionMenuSushi config input s).world_.sushi_index
        < config.sushi_config.length) := by
  have hidx : (GameMenuState.OptionMenuSushi config input s).world_.sushi_index
      = SushiSpec.selected input s.world_.sushi_index config.sushi_config.length := by
    rw [SushiSpec.option_menu_sushi_eq]
  have hlen := SushiSpec.rows_length config.sushi_config.length
  refine ⟨SushiSpec.option_menu_sushi_eq config input s,
    SushiSpec.rows_flatten _, ⟨hlen, by omega, by omega⟩, ?_, ?_, ?_, ?_, ?_⟩
  · intro r hr
    rw [SushiSpec.rows_getD _ _ (by omega), List.length_range']
    omega
  · intro r hr
    rw [SushiSpec.rows_getD _ _ (by omega), List.length_range']
    omega
  · intro h
    rw [hidx]
    exact SushiSpec.selected_of_none input _ _ h
  · intro k hk hp
    rw [hidx]
    exact SushiSpec.selected_of_some input _ _ k hk hp
  · rw [hidx]
    exact SushiSpec.selected_lt_or_eq input _ _

/-- Witness of C13: in a table of four sushi the buttons of sushi 1 and of
sushi 3 report kEventWentUp; sushi 3 is below the size of the table and its
button is the last one pressed, so the pass selects sushi 3. -/
theorem option_menu_sushi_rows_witness :
    (3 < SushiExample.config.sushi_config.length ∧
      flatui.test (SushiExample.input.sushi 3) flatui.kEventWentUp = true) ∧
    (GameMenuState.OptionMenuSushi SushiExample.config SushiExample.input
      SushiExample.menu).world_.sushi_index = 3 :=
  ⟨⟨by decide, by decide⟩, by
    have h := (option_menu_sushi_rows SushiExample.config SushiExample.input
      SushiExample.menu).2.2.2.2.2.2.1 3 (by decide) (by decide)
    have hl : SushiExample.config.sushi_config.length = 4 := rfl
    omega⟩

end Zooshi
